import Mathlib

/-!
Verification development for a browser chat client (frontend of dspy_editor).
The embedding models the message store and the two network protocols of
src/frontend/src/App.tsx: the field-merge patch operation markMessage, the
generation-response ingestion handleSend, and the edit persistence
handleSaveEdit.  Network responses are modelled as explicit data; byte
chunks of a streamed body are represented by the text each chunk decodes to.
-/

namespace DspyEditor

/-- Role of a chat message, from src/frontend/src/types.ts. -/
inductive Role where
  | user
  | bot
deriving DecidableEq, Repr

/-- Message status, from src/frontend/src/types.ts
(streaming, ready, saving-edit, error). -/
inductive Status where
  | streaming
  | ready
  | savingEdit
  | error
deriving DecidableEq, Repr

/-- ChatMessage, from src/frontend/src/types.ts.  Optional fields are
Option values; an absent field is none. -/
structure ChatMessage where
  id : String
  role : Role
  content : String
  turnId : Option String := none
  status : Option Status := none
  error : Option String := none
deriving DecidableEq, Repr

/-- A partial update of a ChatMessage, as passed to markMessage.  Each field
is none when the corresponding key is absent from the JavaScript object.
For turnId and error the code sometimes passes the key with an undefined
value (which the spread still copies), hence the nested Option. -/
structure MessagePatch where
  content : Option String := none
  turnId : Option (Option String) := none
  status : Option Status := none
  error : Option (Option String) := none
deriving DecidableEq, Repr

/-- The JavaScript object spread, merging the present fields of
a patch into a message.  Models the expression
spread of message then changes in markMessage (App.tsx). -/
def applyPatch (message : ChatMessage) (changes : MessagePatch) : ChatMessage :=
  { message with
    content := changes.content.getD message.content,
    turnId := changes.turnId.getD message.turnId,
    status := match changes.status with
      | some s => some s
      | none => message.status,
    error := changes.error.getD message.error }

/-- markMessage from App.tsx: map over the list, merging the changes into
every message whose id matches. -/
def markMessage (id : String) (changes : MessagePatch) (messages : List ChatMessage) :
    List ChatMessage :=
  messages.map (fun message => if message.id == id then applyPatch message changes else message)

/-- Apply a sequence of patches to one message, in order. -/
def applyPatches (m : ChatMessage) (ps : List MessagePatch) : ChatMessage :=
  ps.foldl applyPatch m

/-- Does the haystack character list contain the needle as a contiguous run
(the JavaScript String.includes on the decoded characters). -/
def listContainsRun (needle : List Char) : List Char → Bool
  | [] => needle.isEmpty
  | c :: rest => needle.isPrefixOf (c :: rest) || listContainsRun needle rest

/-- JavaScript String.includes. -/
def strIncludes (hay needle : String) : Bool :=
  listContainsRun needle.toList hay.toList

/-- The content-type test of App.tsx:
contentType truthy and contentType.includes of application/json. -/
def isJsonContentType : Option String → Bool
  | none => false
  | some ct => strIncludes ct "application/json"

/-- JavaScript falsiness of an optional string value: undefined and the
empty string are falsy, every other string is truthy. -/
def optStrFalsy : Option String → Bool
  | none => true
  | some s => s.isEmpty

/-- The parsed JSON body of a backend response, restricted to the fields the
client inspects.  response is some s exactly when the parsed object has a
string-typed response field with value s; turn_id is some s exactly when the
object has a string-valued turn_id field s; serialized is the result of
JSON.stringify on the whole parsed object. -/
structure JsonData where
  response : Option String := none
  turn_id : Option String := none
  serialized : String := ""
deriving DecidableEq, Repr

/-- A streamed response body: the text decoded from each received byte
chunk, in arrival order, followed by an optional failure thrown by a read
after the listed chunks were delivered. -/
structure StreamBody where
  chunks : List String
  readError : Option String := none
deriving DecidableEq, Repr

/-- A response to POST generate_response as the client observes it:
ok and status from the fetch Response, the content-type header, the
x-turn-id header (none when absent), the result of response.json()
(an error value when parsing throws), the readable body stream when one
is present, and the result of response.text(). -/
structure GenResponse where
  ok : Bool
  status : Nat
  contentType : Option String := none
  xTurnIdHeader : Option String := none
  json : Except String JsonData := Except.error "parse"
  body : Option StreamBody := none
  text : String := ""
deriving Repr

/-- The error message built for a non-2xx generate response. -/
def genErrMsg (status : Nat) : String :=
  "Unable to generate response (" ++ toString status ++ ")"

/-- The patch applied in the catch block of handleSend: content cleared,
status error, error message set. -/
def errorPatch (e : String) : MessagePatch :=
  { content := some "", status := some Status.error, error := some (some e) }

/-- The final success patch of handleSend: final content, status ready,
turnId key present (possibly undefined), error key present and undefined. -/
def successPatch (c : String) (t : Option String) : MessagePatch :=
  { content := some c, turnId := some t, status := some Status.ready, error := some none }

/-- The patch applied on each chunk inside the streaming read loop. -/
def streamingPatch (aggregate : String) : MessagePatch :=
  { content := some aggregate, status := some Status.streaming }

/-- The read loop of the stream branch of handleSend: starting from the
current aggregate, emit one patch per chunk carrying the whole aggregate so
far, and return the emitted patches together with the final aggregate. -/
def streamLoop : String → List String → List MessagePatch × String
  | aggregate, [] => ([], aggregate)
  | aggregate, chunk :: rest =>
    let next := aggregate ++ chunk
    let r := streamLoop next rest
    (streamingPatch next :: r.1, r.2)

/-- The observable effect of one handleSend call on the store: the ordered
patches applied to the bot message of this send, and the page-level error
notification when one is raised. -/
structure SendOutcome where
  patches : List MessagePatch
  pageError : Option String := none
deriving DecidableEq, Repr

/-- handleSend from App.tsx, after the user and bot messages were appended.
The fetch result is Except.error e when the request itself failed with an
error whose message is e.  Returns the patches applied to the bot message
and the page-level error. -/
def handleSend (fetchResult : Except String GenResponse) : SendOutcome :=
  match fetchResult with
  | Except.error e => { patches := [errorPatch e], pageError := some e }
  | Except.ok response =>
    if response.ok = false then
      let err := genErrMsg response.status
      { patches := [errorPatch err], pageError := some err }
    else
      let turnId0 : Option String := response.xTurnIdHeader
      if isJsonContentType response.contentType then
        match response.json with
        | Except.error e => { patches := [errorPatch e], pageError := some e }
        | Except.ok data =>
          let finalContent := match data.response with
            | some s => s
            | none => data.serialized
          let turnId := if optStrFalsy turnId0 && !optStrFalsy data.turn_id then
              data.turn_id
            else turnId0
          { patches := [successPatch finalContent turnId], pageError := none }
      else
        match response.body with
        | some sb =>
          let r := streamLoop "" sb.chunks
          match sb.readError with
          | some e => { patches := r.1 ++ [errorPatch e], pageError := some e }
          | none => { patches := r.1 ++ [successPatch r.2 turnId0], pageError := none }
        | none => { patches := [successPatch response.text turnId0], pageError := none }

/-- The initial bot message created by handleSend before any patch. -/
def initialBotMessage (id : String) : ChatMessage :=
  { id := id, role := Role.bot, content := "", status := some Status.streaming }

/-- A response to POST save_edit as the client observes it. -/
structure EditResponse where
  ok : Bool
  status : Nat
  contentType : Option String := none
  json : Except String JsonData := Except.error "parse"
deriving Repr

/-- The error message built for a non-2xx save_edit response. -/
def saveErrMsg (status : Nat) : String :=
  "Unable to save edit (" ++ toString status ++ ")"

/-- The error thrown when the target message carries no usable turn id. -/
def missingTurnIdError : String := "Missing turn ID for this message."

/-- The patch marking the target message as being saved. -/
def savingEditPatch : MessagePatch := { status := some Status.savingEdit }

/-- The observable effect of one handleSaveEdit call: the ordered patches
applied to the target message, and the message of the error the call
throws, when it throws. -/
structure EditOutcome where
  patches : List MessagePatch
  thrown : Option String := none
deriving DecidableEq, Repr

/-- handleSaveEdit from App.tsx.  The precondition reads the current
message list; the fetch result is consumed only past the precondition.
On a non-2xx response or a fetch failure the message keeps its content,
returns to ready with the error recorded, and the failure is re-thrown;
on success the content comes from a string response field of a JSON body
when one parses, and otherwise is the submitted content. -/
def handleSaveEdit (messages : List ChatMessage) (messageId : String) (content : String)
    (fetchResult : Except String EditResponse) : EditOutcome :=
  let targetMessage := messages.find? (fun m => m.id == messageId)
  if optStrFalsy (targetMessage.bind (fun m => m.turnId)) then
    { patches := [], thrown := some missingTurnIdError }
  else
    match fetchResult with
    | Except.error e =>
      { patches := [savingEditPatch, { status := some Status.ready, error := some (some e) }],
        thrown := some e }
    | Except.ok response =>
      if response.ok = false then
        let err := saveErrMsg response.status
        { patches := [savingEditPatch, { status := some Status.ready, error := some (some err) }],
          thrown := some err }
      else
        let updatedContent :=
          if isJsonContentType response.contentType then
            match response.json with
            | Except.ok data => match data.response with
              | some s => s
              | none => content
            | Except.error _ => content
          else content
        { patches := [savingEditPatch,
            { content := some updatedContent, status := some Status.ready, error := some none }],
          thrown := none }

/-- A store mutation: append adds messages at the end, patch merges fields
into the message with the given id (markMessage). -/
inductive StoreOp where
  | append (newMessages : List ChatMessage)
  | patch (id : String) (changes : MessagePatch)
deriving DecidableEq, Repr

/-- Apply one store operation. -/
def applyOp (messages : List ChatMessage) : StoreOp → List ChatMessage
  | StoreOp.append newMessages => messages ++ newMessages
  | StoreOp.patch id changes => markMessage id changes messages

/-- Apply a sequence of store operations, in order. -/
def applyOps (messages : List ChatMessage) (ops : List StoreOp) : List ChatMessage :=
  ops.foldl applyOp messages

/-! Helper lemmas shared by several claims. -/

theorem markMessage_getElem? (id : String) (p : MessagePatch) (msgs : List ChatMessage)
    (i : Nat) :
    (markMessage id p msgs)[i]? =
      (msgs[i]?).map (fun m => if m.id == id then applyPatch m p else m) := by
  simp [markMessage, List.getElem?_map]

theorem markMessage_length (id : String) (p : MessagePatch) (msgs : List ChatMessage) :
    (markMessage id p msgs).length = msgs.length := by
  simp [markMessage]

theorem applyPatches_append (m : ChatMessage) (ps qs : List MessagePatch) :
    applyPatches m (ps ++ qs) = applyPatches (applyPatches m ps) qs := by
  simp [applyPatches, List.foldl_append]

/-- Applying any patch list ending with an error patch yields a message with
empty content, error status and the given error message, whatever came
before. -/
theorem applyPatches_errorPatch (m : ChatMessage) (ps : List MessagePatch) (e : String) :
    (applyPatches m (ps ++ [errorPatch e])).content = "" ∧
    (applyPatches m (ps ++ [errorPatch e])).status = some Status.error ∧
    (applyPatches m (ps ++ [errorPatch e])).error = some e := by
  rw [applyPatches_append]
  simp [applyPatches, applyPatch, errorPatch]

/-- The final aggregate of the stream loop is the concatenation of the
starting aggregate with every chunk, in order. -/
theorem streamLoop_snd (chunks : List String) :
    ∀ acc, (streamLoop acc chunks).2 = chunks.foldl (fun a c => a ++ c) acc := by
  induction chunks with
  | nil => intro acc; rfl
  | cons c rest ih => intro acc; simpa [streamLoop] using ih (acc ++ c)

/-- The starting aggregate is a prefix of the final aggregate of the
stream loop. -/
theorem streamLoop_prefix_start (chunks : List String) :
    ∀ acc, ∃ t, acc ++ t = (streamLoop acc chunks).2 := by
  induction chunks with
  | nil => intro acc; exact ⟨"", by simp [streamLoop]⟩
  | cons c rest ih =>
    intro acc
    obtain ⟨t, ht⟩ := ih (acc ++ c)
    exact ⟨c ++ t, by simpa [streamLoop, String.append_assoc] using ht⟩

/-- Every patch emitted by the stream loop sets the content to a string of
which the final aggregate is an extension, and marks the message streaming. -/
theorem streamLoop_patches (chunks : List String) :
    ∀ acc p, p ∈ (streamLoop acc chunks).1 →
      p.status = some Status.streaming ∧
      ∃ c, p.content = some c ∧ ∃ t, c ++ t = (streamLoop acc chunks).2 := by
  induction chunks with
  | nil => intro acc p hp; simp [streamLoop] at hp
  | cons c rest ih =>
    intro acc p hp
    simp only [streamLoop, List.mem_cons] at hp
    rcases hp with rfl | hp
    · refine ⟨rfl, acc ++ c, rfl, ?_⟩
      have h := streamLoop_prefix_start rest (acc ++ c)
      simpa [streamLoop] using h
    · have h := ih (acc ++ c) p hp
      simpa [streamLoop] using h

/-! Claim theorems. -/

/-- C10: markMessage preserves both the length and the order of the message
list: the result is the pointwise image of the input, rewriting in place
exactly the entries whose id matches and no others, with no insertion,
deletion, duplication or reordering. -/
theorem claim_C10_patch_in_place (id : String) (p : MessagePatch) (msgs : List ChatMessage) :
    (markMessage id p msgs).length = msgs.length ∧
    ∀ i : Nat, (markMessage id p msgs)[i]? =
      (msgs[i]?).map (fun m => if m.id == id then applyPatch m p else m) :=
  ⟨markMessage_length id p msgs, fun i => markMessage_getElem? id p msgs i⟩

/-- C9: under any sequence of append and patch store operations, a message
whose id is never the target of a patch stays byte-for-byte unchanged at its
position; and a patch whose id matches no message in the store leaves the
store unchanged. -/
theorem claim_C9_frame :
    (∀ (ops : List StoreOp) (msgs : List ChatMessage) (i : Nat) (m : ChatMessage),
      msgs[i]? = some m →
      (∀ id p, StoreOp.patch id p ∈ ops → m.id ≠ id) →
      (applyOps msgs ops)[i]? = some m) ∧
    (∀ (id : String) (p : MessagePatch) (msgs : List ChatMessage),
      (∀ m ∈ msgs, m.id ≠ id) → applyOp msgs (StoreOp.patch id p) = msgs) := by
  constructor
  · intro ops
    induction ops with
    | nil => intro msgs i m h _; simpa [applyOps] using h
    | cons op rest ih =>
      intro msgs i m h hops
      have hrest : ∀ id p, StoreOp.patch id p ∈ rest → m.id ≠ id :=
        fun id p hp => hops id p (List.mem_cons_of_mem _ hp)
      have hstep : (applyOp msgs op)[i]? = some m := by
        cases op with
        | append newMessages =>
          have hi : i < msgs.length := by
            rw [List.getElem?_eq_some] at h; exact h.1
          rw [show applyOp msgs (StoreOp.append newMessages) = msgs ++ newMessages from rfl]
          rw [List.getElem?_append]
          simp [hi, h]
        | patch id p =>
          have hne : (m.id == id) = false :=
            beq_eq_false_iff_ne.mpr (hops id p (List.mem_cons_self _ _))
          rw [show applyOp msgs (StoreOp.patch id p) = markMessage id p msgs from rfl]
          rw [markMessage_getElem?, h]
          simp only [Option.map_some', hne, Bool.false_eq_true, if_false]
      exact ih (applyOp msgs op) i m hstep hrest
  · intro id p msgs
    induction msgs with
    | nil => intro _; rfl
    | cons x xs ih =>
      intro hall
      have hx : (x.id == id) = false :=
        beq_eq_false_iff_ne.mpr (hall x (List.mem_cons_self _ _))
      have hxs := ih (fun m hm => hall m (List.mem_cons_of_mem _ hm))
      simp only [applyOp, markMessage, List.map_cons, hx, Bool.false_eq_true, if_false] at hxs ⊢
      rw [hxs]

/-- Witness for C9 at a concrete store and operation sequence. -/
theorem claim_C9_frame_witness :
    (applyOps [{ id := "u", role := Role.user, content := "p" }]
      [StoreOp.append [{ id := "b", role := Role.bot, content := "" }],
       StoreOp.patch "b" (streamingPatch "He"),
       StoreOp.patch "zzz" savingEditPatch])[0]?
      = some { id := "u", role := Role.user, content := "p" } ∧
    applyOp [{ id := "u", role := Role.user, content := "p" }]
      (StoreOp.patch "zzz" savingEditPatch)
      = [{ id := "u", role := Role.user, content := "p" }] := by
  constructor
  · apply claim_C9_frame.1 _ _ 0 _ rfl
    intro id p hp
    simp only [List.mem_cons, List.not_mem_nil, or_false] at hp
    rcases hp with h | h | h
    · exact StoreOp.noConfusion h
    · cases h; decide
    · cases h; decide
  · apply claim_C9_frame.2
    intro m hm
    simp only [List.mem_cons, List.not_mem_nil, or_false] at hm
    cases hm; decide

/-- The concrete generation response of claim C2: a 2xx JSON response with
body response hi and turn_id t1 and no turn id header. -/
def c2Response : GenResponse :=
  { ok := true, status := 200, contentType := some "application/json",
    json := Except.ok { response := some "hi", turn_id := some "t1", serialized := "s" } }

/-- The bot message after ingesting the C2 response. -/
def c2Final : ChatMessage :=
  applyPatches (initialBotMessage "bot") (handleSend (Except.ok c2Response)).patches

/-- C2: after a successful plain-JSON generation response with body
response hi and turn_id t1, the bot message ends ready with content hi,
turnId t1 and no error. -/
theorem claim_C2_plain_json :
    c2Final.status = some Status.ready ∧ c2Final.content = "hi" ∧
    c2Final.turnId = some "t1" ∧ c2Final.error = none := by
  decide

/-- C6: saving an edit of a message that carries no turnId fails at once
with the missing-turn-identifier error, applies no patch at all (so the
message never reaches the saving-edit status and its state is unchanged),
and the outcome is the same whatever the network would have answered. -/
theorem claim_C6_missing_turn_id (msgs : List ChatMessage) (messageId content : String)
    (fr : Except String EditResponse) (m : ChatMessage)
    (hfind : msgs.find? (fun x => x.id == messageId) = some m)
    (hturn : m.turnId = none) :
    handleSaveEdit msgs messageId content fr =
      { patches := [], thrown := some missingTurnIdError } ∧
    applyPatches m (handleSaveEdit msgs messageId content fr).patches = m := by
  have h1 : handleSaveEdit msgs messageId content fr =
      { patches := [], thrown := some missingTurnIdError } := by
    simp [handleSaveEdit, hfind, hturn, optStrFalsy]
  refine ⟨h1, ?_⟩
  rw [h1]
  rfl

/-- Witness for C6 at a concrete store and fetch result. -/
theorem claim_C6_missing_turn_id_witness :
    handleSaveEdit [{ id := "b", role := Role.bot, content := "old" }] "b" "new"
        (Except.ok { ok := true, status := 200 }) =
      { patches := [], thrown := some missingTurnIdError } ∧
    applyPatches { id := "b", role := Role.bot, content := "old" }
        (handleSaveEdit [{ id := "b", role := Role.bot, content := "old" }] "b" "new"
          (Except.ok { ok := true, status := 200 })).patches =
      { id := "b", role := Role.bot, content := "old" } :=
  claim_C6_missing_turn_id _ "b" "new" _ _ (by decide) rfl

/-- The concrete streamed response of claim C1: a 2xx response with no
content-type header and a body delivering the chunks He and llo. -/
def c1Response : GenResponse :=
  { ok := true, status := 200, body := some { chunks := ["He", "llo"] } }

/-- C1: during byte-stream ingestion every store update rewrites the whole
accumulator into the content, so every content value ever written is a
prefix of the final content; on the chunks He and llo the message passes
through contents He then Hello, ends ready with content Hello, and turnId
stays undefined. -/
theorem claim_C1_stream_prefixes (r : GenResponse) (sb : StreamBody) (botId : String)
    (hok : r.ok = true) (hct : isJsonContentType r.contentType = false)
    (hb : r.body = some sb) (hre : sb.readError = none) :
    (∀ p ∈ (handleSend (Except.ok r)).patches, ∀ c, p.content = some c →
      ∃ t, c ++ t =
        (applyPatches (initialBotMessage botId) (handleSend (Except.ok r)).patches).content) ∧
    (handleSend (Except.ok c1Response)).patches
      = [streamingPatch "He", streamingPatch "Hello", successPatch "Hello" none] ∧
    (applyPatches (initialBotMessage "bot") (handleSend (Except.ok c1Response)).patches).content
      = "Hello" ∧
    (applyPatches (initialBotMessage "bot") (handleSend (Except.ok c1Response)).patches).status
      = some Status.ready ∧
    (applyPatches (initialBotMessage "bot") (handleSend (Except.ok c1Response)).patches).turnId
      = none := by
  have hpatches : (handleSend (Except.ok r)).patches
      = (streamLoop "" sb.chunks).1
        ++ [successPatch (streamLoop "" sb.chunks).2 r.xTurnIdHeader] := by
    simp [handleSend, hok, hct, hb, hre]
  have hfinal : (applyPatches (initialBotMessage botId) (handleSend (Except.ok r)).patches).content
      = (streamLoop "" sb.chunks).2 := by
    rw [hpatches, applyPatches_append]
    simp [applyPatches, applyPatch, successPatch]
  refine ⟨?_, by decide, by decide, by decide, by decide⟩
  intro p hp c hc
  rw [hfinal]
  rw [hpatches] at hp
  rcases List.mem_append.mp hp with hp | hp
  · obtain ⟨_, c', hc', t, ht⟩ := streamLoop_patches sb.chunks "" p hp
    rw [hc] at hc'
    obtain rfl : c = c' := by injection hc'
    exact ⟨t, ht⟩
  · rw [List.mem_singleton.mp hp] at hc
    obtain rfl : (streamLoop "" sb.chunks).2 = c := by injection hc
    exact ⟨"", String.append_empty _⟩

/-- Witness for C1 at the concrete chunk sequence He, llo. -/
theorem claim_C1_stream_prefixes_witness :
    ∃ t, "He" ++ t =
      (applyPatches (initialBotMessage "bot") (handleSend (Except.ok c1Response)).patches).content :=
  (claim_C1_stream_prefixes c1Response { chunks := ["He", "llo"] } "bot" rfl rfl rfl rfl).1
    (streamingPatch "He") (by decide) "He" rfl

/-- The concrete generation response of the C3 counterexample: the turn id
header is present with the empty string as value while the JSON body
carries turn_id t1. -/
def c3Response : GenResponse :=
  { ok := true, status := 200, contentType := some "application/json",
    xTurnIdHeader := some "",
    json := Except.ok { response := some "hi", turn_id := some "t1", serialized := "s" } }

/-- C3 counterexample: with the turn id header present but empty and a JSON
body turn_id t1, the resulting turnId is the body value t1, not the header
value, so the header does not take precedence merely by being present. -/
theorem claim_C3_counterexample :
    c3Response.xTurnIdHeader = some "" ∧
    (applyPatches (initialBotMessage "bot") (handleSend (Except.ok c3Response)).patches).turnId
      = some "t1" ∧
    some "t1" ≠ c3Response.xTurnIdHeader := by
  decide

/-- C3 amended: when both the turn id header and a JSON-body turn_id are
present on a successful JSON response, the resulting turnId is the body
value if the header value is the empty string, and the header value
otherwise. -/
theorem claim_C3_amended (r : GenResponse) (data : JsonData) (s t : String)
    (hok : r.ok = true) (hct : isJsonContentType r.contentType = true)
    (hjson : r.json = Except.ok data)
    (hdr : r.xTurnIdHeader = some s) (hbody : data.turn_id = some t) :
    (applyPatches (initialBotMessage "bot") (handleSend (Except.ok r)).patches).turnId
      = if s = "" then some t else some s := by
  have hmain : (applyPatches (initialBotMessage "bot") (handleSend (Except.ok r)).patches).turnId
      = (if optStrFalsy r.xTurnIdHeader && !optStrFalsy data.turn_id then data.turn_id
         else r.xTurnIdHeader) := by
    simp [handleSend, hok, hct, hjson, applyPatches, applyPatch, successPatch]
  rw [hmain, hdr, hbody]
  cases hse : s.isEmpty with
  | true =>
    have hs : s = "" := (String.isEmpty_iff s).mp hse
    cases hte : t.isEmpty with
    | true =>
      have ht : t = "" := (String.isEmpty_iff t).mp hte
      subst hs; subst ht
      simp [optStrFalsy]
    | false =>
      subst hs
      have h0 : ("" : String).isEmpty = true := rfl
      simp [optStrFalsy, hte, h0]
  | false =>
    have hs : ¬s = "" := fun h => absurd (h ▸ hse) (by decide)
    simp [optStrFalsy, hse, hs]

/-- Witness for the amended C3 at the concrete counterexample response. -/
theorem claim_C3_amended_witness :
    (applyPatches (initialBotMessage "bot") (handleSend (Except.ok c3Response)).patches).turnId
      = if ("" : String) = "" then some "t1" else some "" :=
  claim_C3_amended c3Response { response := some "hi", turn_id := some "t1", serialized := "s" }
    "" "t1" rfl (by decide) rfl rfl rfl

/-- C4: every failing generation request (network failure, non-2xx status,
JSON parse failure, or a stream read failure) leaves the bot message in
status error with content cleared to the empty string and the error message
recorded, raises the same message as the page-level error, and for a
non-2xx response the message contains the numeric status code. -/
theorem claim_C4_generation_failure (fr : Except String GenResponse)
    (hfail : (∃ e, fr = Except.error e) ∨
      (∃ r, fr = Except.ok r ∧
        (r.ok = false ∨
         (r.ok = true ∧ isJsonContentType r.contentType = true ∧
           ∃ e, r.json = Except.error e) ∨
         (r.ok = true ∧ isJsonContentType r.contentType = false ∧
           ∃ sb e, r.body = some sb ∧ sb.readError = some e)))) :
    ∃ err,
      (handleSend fr).pageError = some err ∧
      (applyPatches (initialBotMessage "bot") (handleSend fr).patches).content = "" ∧
      (applyPatches (initialBotMessage "bot") (handleSend fr).patches).status
        = some Status.error ∧
      (applyPatches (initialBotMessage "bot") (handleSend fr).patches).error = some err ∧
      ∀ r, fr = Except.ok r → r.ok = false →
        ∃ pre post, err = pre ++ toString r.status ++ post := by
  rcases hfail with ⟨e, rfl⟩ | ⟨r, rfl, hcase⟩
  · have h := applyPatches_errorPatch (initialBotMessage "bot") [] e
    simp only [List.nil_append] at h
    exact ⟨e, rfl, h.1, h.2.1, h.2.2, fun r heq _ => Except.noConfusion heq⟩
  · rcases hcase with hok | ⟨hok, hct, e, hjson⟩ | ⟨hok, hct, sb, e, hb, hre⟩
    · have ho : handleSend (Except.ok r)
          = { patches := [errorPatch (genErrMsg r.status)],
              pageError := some (genErrMsg r.status) } := by
        simp [handleSend, hok]
      have h := applyPatches_errorPatch (initialBotMessage "bot") [] (genErrMsg r.status)
      simp only [List.nil_append] at h
      rw [ho]
      refine ⟨genErrMsg r.status, rfl, h.1, h.2.1, h.2.2, ?_⟩
      intro r' heq _
      cases heq
      exact ⟨"Unable to generate response (", ")", rfl⟩
    · have ho : handleSend (Except.ok r)
          = { patches := [errorPatch e], pageError := some e } := by
        simp [handleSend, hok, hct, hjson]
      have h := applyPatches_errorPatch (initialBotMessage "bot") [] e
      simp only [List.nil_append] at h
      rw [ho]
      refine ⟨e, rfl, h.1, h.2.1, h.2.2, ?_⟩
      intro r' heq hok'
      cases heq
      rw [hok] at hok'
      exact Bool.noConfusion hok'
    · have ho : handleSend (Except.ok r)
          = { patches := (streamLoop "" sb.chunks).1 ++ [errorPatch e],
              pageError := some e } := by
        simp [handleSend, hok, hct, hb, hre]
      have h := applyPatches_errorPatch (initialBotMessage "bot") (streamLoop "" sb.chunks).1 e
      rw [ho]
      refine ⟨e, rfl, h.1, h.2.1, h.2.2, ?_⟩
      intro r' heq hok'
      cases heq
      rw [hok] at hok'
      exact Bool.noConfusion hok'

/-- The concrete failing generation response of the C4 witness: a 500. -/
def c4Response : GenResponse := { ok := false, status := 500 }

/-- Witness for C4 at a concrete non-2xx response. -/
theorem claim_C4_generation_failure_witness :
    ∃ err,
      (handleSend (Except.ok c4Response)).pageError = some err ∧
      (applyPatches (initialBotMessage "bot") (handleSend (Except.ok c4Response)).patches).content
        = "" ∧
      (applyPatches (initialBotMessage "bot") (handleSend (Except.ok c4Response)).patches).status
        = some Status.error ∧
      (applyPatches (initialBotMessage "bot") (handleSend (Except.ok c4Response)).patches).error
        = some err ∧
      ∀ r, (Except.ok c4Response : Except String GenResponse) = Except.ok r → r.ok = false →
        ∃ pre post, err = pre ++ toString r.status ++ post :=
  claim_C4_generation_failure (Except.ok c4Response)
    (Or.inr ⟨c4Response, rfl, Or.inl rfl⟩)

/-- C5: a failed edit save (fetch failure or non-2xx response) leaves the
prior content and turnId untouched, puts the status back to ready rather
than error, records an error message on the message (containing the numeric
status code when a response was returned), and re-throws the failure to the
caller. -/
theorem claim_C5_edit_failure (msgs : List ChatMessage) (messageId content : String)
    (fr : Except String EditResponse) (m : ChatMessage) (t : String)
    (hfind : msgs.find? (fun x => x.id == messageId) = some m)
    (hturn : m.turnId = some t) (htne : t ≠ "")
    (hfail : (∃ e, fr = Except.error e) ∨ (∃ r, fr = Except.ok r ∧ r.ok = false)) :
    ∃ err,
      (handleSaveEdit msgs messageId content fr).thrown = some err ∧
      (applyPatches m (handleSaveEdit msgs messageId content fr).patches).content
        = m.content ∧
      (applyPatches m (handleSaveEdit msgs messageId content fr).patches).status
        = some Status.ready ∧
      (applyPatches m (handleSaveEdit msgs messageId content fr).patches).error = some err ∧
      (applyPatches m (handleSaveEdit msgs messageId content fr).patches).turnId
        = m.turnId ∧
      ∀ r, fr = Except.ok r → ∃ pre post, err = pre ++ toString r.status ++ post := by
  have hte : t.isEmpty = false := by
    cases h : t.isEmpty with
    | false => rfl
    | true => exact absurd ((String.isEmpty_iff t).mp h) htne
  rcases hfail with ⟨e, rfl⟩ | ⟨r, rfl, hok⟩
  · have ho : handleSaveEdit msgs messageId content (Except.error e)
        = { patches := [savingEditPatch,
              { status := some Status.ready, error := some (some e) }],
            thrown := some e } := by
      simp [handleSaveEdit, hfind, hturn, optStrFalsy, hte]
    rw [ho]
    refine ⟨e, rfl, ?_, ?_, ?_, ?_, fun r heq => Except.noConfusion heq⟩ <;>
      simp [applyPatches, applyPatch, savingEditPatch]
  · have ho : handleSaveEdit msgs messageId content (Except.ok r)
        = { patches := [savingEditPatch,
              { status := some Status.ready, error := some (some (saveErrMsg r.status)) }],
            thrown := some (saveErrMsg r.status) } := by
      simp [handleSaveEdit, hfind, hturn, optStrFalsy, hte, hok]
    rw [ho]
    refine ⟨saveErrMsg r.status, rfl, ?_, ?_, ?_, ?_, ?_⟩
    · simp [applyPatches, applyPatch, savingEditPatch]
    · simp [applyPatches, applyPatch, savingEditPatch]
    · simp [applyPatches, applyPatch, savingEditPatch]
    · simp [applyPatches, applyPatch, savingEditPatch]
    · intro r' heq
      cases heq
      exact ⟨"Unable to save edit (", ")", rfl⟩

/-- The concrete target message of the C5 witness. -/
def c5Message : ChatMessage :=
  { id := "b", role := Role.bot, content := "old", turnId := some "t1" }

/-- The concrete failing save response of the C5 witness: a 400. -/
def c5Fetch : Except String EditResponse := Except.ok { ok := false, status := 400 }

/-- Witness for C5 at a concrete store and failing response. -/
theorem claim_C5_edit_failure_witness :
    ∃ err,
      (handleSaveEdit [c5Message] "b" "new" c5Fetch).thrown = some err ∧
      (applyPatches c5Message (handleSaveEdit [c5Message] "b" "new" c5Fetch).patches).content
        = c5Message.content ∧
      (applyPatches c5Message (handleSaveEdit [c5Message] "b" "new" c5Fetch).patches).status
        = some Status.ready ∧
      (applyPatches c5Message (handleSaveEdit [c5Message] "b" "new" c5Fetch).patches).error
        = some err ∧
      (applyPatches c5Message (handleSaveEdit [c5Message] "b" "new" c5Fetch).patches).turnId
        = c5Message.turnId ∧
      ∀ r, c5Fetch = Except.ok r → ∃ pre post, err = pre ++ toString r.status ++ post :=
  claim_C5_edit_failure [c5Message] "b" "new" c5Fetch c5Message "t1" (by decide) rfl
    (by decide) (Or.inr ⟨{ ok := false, status := 400 }, rfl, rfl⟩)

/-- C7: a successful generation response is resolved by exactly one of
three paths, in priority order: a JSON content-type makes the parsed body
authoritative (a string response field verbatim, otherwise the serialized
object); otherwise a readable byte stream is read incrementally and the
final content is the concatenation of its chunks; otherwise the whole body
text becomes the content through one single patch with no intermediate
updates. -/
theorem claim_C7_three_paths (r : GenResponse) (hok : r.ok = true) :
    (isJsonContentType r.contentType = true →
      ∀ data, r.json = Except.ok data →
        (applyPatches (initialBotMessage "bot") (handleSend (Except.ok r)).patches).content
          = (match data.response with | some s => s | none => data.serialized) ∧
        (applyPatches (initialBotMessage "bot") (handleSend (Except.ok r)).patches).status
          = some Status.ready) ∧
    (isJsonContentType r.contentType = false →
      ∀ sb, r.body = some sb → sb.readError = none →
        (applyPatches (initialBotMessage "bot") (handleSend (Except.ok r)).patches).content
          = sb.chunks.foldl (fun a c => a ++ c) "" ∧
        (applyPatches (initialBotMessage "bot") (handleSend (Except.ok r)).patches).status
          = some Status.ready) ∧
    (isJsonContentType r.contentType = false → r.body = none →
      (handleSend (Except.ok r)).patches = [successPatch r.text r.xTurnIdHeader] ∧
      (applyPatches (initialBotMessage "bot") (handleSend (Except.ok r)).patches).content
        = r.text ∧
      (applyPatches (initialBotMessage "bot") (handleSend (Except.ok r)).patches).status
        = some Status.ready) := by
  refine ⟨?_, ?_, ?_⟩
  · intro hct data hjson
    have ho : (handleSend (Except.ok r)).patches
        = [successPatch (match data.response with | some s => s | none => data.serialized)
            (if optStrFalsy r.xTurnIdHeader && !optStrFalsy data.turn_id then data.turn_id
             else r.xTurnIdHeader)] := by
      simp [handleSend, hok, hct, hjson]
    rw [ho]
    exact ⟨by simp [applyPatches, applyPatch, successPatch],
      by simp [applyPatches, applyPatch, successPatch]⟩
  · intro hct sb hb hre
    have hpatches : (handleSend (Except.ok r)).patches
        = (streamLoop "" sb.chunks).1
          ++ [successPatch (streamLoop "" sb.chunks).2 r.xTurnIdHeader] := by
      simp [handleSend, hok, hct, hb, hre]
    rw [hpatches, applyPatches_append]
    constructor
    · simp [applyPatches, applyPatch, successPatch, streamLoop_snd]
    · simp [applyPatches, applyPatch, successPatch]
  · intro hct hb
    have ho : (handleSend (Except.ok r)).patches
        = [successPatch r.text r.xTurnIdHeader] := by
      simp [handleSend, hok, hct, hb]
    rw [ho]
    exact ⟨rfl, by simp [applyPatches, applyPatch, successPatch],
      by simp [applyPatches, applyPatch, successPatch]⟩

/-- The concrete plain-text response of the C7 witness. -/
def c7Response : GenResponse := { ok := true, status := 200, text := "plain" }

/-- Witness for C7 at a concrete plain-text response. -/
theorem claim_C7_three_paths_witness :
    (handleSend (Except.ok c7Response)).patches = [successPatch "plain" none] ∧
    (applyPatches (initialBotMessage "bot") (handleSend (Except.ok c7Response)).patches).content
      = "plain" ∧
    (applyPatches (initialBotMessage "bot") (handleSend (Except.ok c7Response)).patches).status
      = some Status.ready :=
  (claim_C7_three_paths c7Response rfl).2.2 rfl rfl

/-- C8: a successful edit save whose response is not JSON, fails to parse,
or lacks a string response field keeps the submitted edited text as the
message content, returns the status to ready with the error cleared, and
throws nothing: a parse failure on the save response never fails the
operation. -/
theorem claim_C8_edit_success_fallback (msgs : List ChatMessage) (messageId content : String)
    (r : EditResponse) (m : ChatMessage) (t : String)
    (hfind : msgs.find? (fun x => x.id == messageId) = some m)
    (hturn : m.turnId = some t) (htne : t ≠ "") (hok : r.ok = true)
    (hshape : isJsonContentType r.contentType = false ∨
      (∃ e, r.json = Except.error e) ∨
      (∃ d, r.json = Except.ok d ∧ d.response = none)) :
    (handleSaveEdit msgs messageId content (Except.ok r)).thrown = none ∧
    (applyPatches m (handleSaveEdit msgs messageId content (Except.ok r)).patches).content
      = content ∧
    (applyPatches m (handleSaveEdit msgs messageId content (Except.ok r)).patches).status
      = some Status.ready ∧
    (applyPatches m (handleSaveEdit msgs messageId content (Except.ok r)).patches).error
      = none := by
  have hte : t.isEmpty = false := by
    cases h : t.isEmpty with
    | false => rfl
    | true => exact absurd ((String.isEmpty_iff t).mp h) htne
  have ho : handleSaveEdit msgs messageId content (Except.ok r)
      = { patches := [savingEditPatch,
            { content := some content, status := some Status.ready, error := some none }],
          thrown := none } := by
    cases hct : isJsonContentType r.contentType with
    | false => simp [handleSaveEdit, hfind, hturn, optStrFalsy, hte, hok, hct]
    | true =>
      rcases hshape with hf | ⟨e, hjson⟩ | ⟨d, hjson, hresp⟩
      · rw [hct] at hf; exact Bool.noConfusion hf
      · simp [handleSaveEdit, hfind, hturn, optStrFalsy, hte, hok, hct, hjson]
      · simp [handleSaveEdit, hfind, hturn, optStrFalsy, hte, hok, hct, hjson, hresp]
  rw [ho]
  exact ⟨rfl, by simp [applyPatches, applyPatch, savingEditPatch],
    by simp [applyPatches, applyPatch, savingEditPatch],
    by simp [applyPatches, applyPatch, savingEditPatch]⟩

/-- The concrete target message of the C8 witness. -/
def c8Message : ChatMessage :=
  { id := "b", role := Role.bot, content := "old", turnId := some "t9" }

/-- The concrete non-JSON success response of the C8 witness. -/
def c8Response : EditResponse := { ok := true, status := 200 }

/-- Witness for C8 at a concrete store and non-JSON success response. -/
theorem claim_C8_edit_success_fallback_witness :
    (handleSaveEdit [c8Message] "b" "new" (Except.ok c8Response)).thrown = none ∧
    (applyPatches c8Message
        (handleSaveEdit [c8Message] "b" "new" (Except.ok c8Response)).patches).content
      = "new" ∧
    (applyPatches c8Message
        (handleSaveEdit [c8Message] "b" "new" (Except.ok c8Response)).patches).status
      = some Status.ready ∧
    (applyPatches c8Message
        (handleSaveEdit [c8Message] "b" "new" (Except.ok c8Response)).patches).error
      = none :=
  claim_C8_edit_success_fallback [c8Message] "b" "new" c8Response c8Message "t9"
    (by decide) rfl (by decide) rfl (Or.inl rfl)

end DspyEditor
